import Mathlib

/-!
Shallow embedding of plastick.js (v0.4.1, `src/plastick.js`), a fixed-timestep
game-loop scheduler with a state stack.

Modelling conventions:

* JS objects compared with `===` (Plastick.State instances, listener elements,
  event-type strings, callback functions) are represented by numeric identities
  (`sid`, `element`, `eventType`, `callback`).  Two model values with the same
  identity stand for the same JS object.
* Arguments that may fail an `instanceof Plastick.State` check are modelled as
  `Option State`: `some s` is a valid `Plastick.State`, `none` is any other value.
* The JS clock (`window.performance.now()`, float milliseconds) is modelled as
  an exact integer-millisecond clock (`ℤ`); `tickAlpha`, a genuine fraction, is
  kept in `ℚ`.  The loop condition `frameTime * TARGET_TPS / 1000 > currentTick`
  is embedded as the equivalent integer comparison
  `frameTime * TARGET_TPS > currentTick * 1000` (lemma `tickDue_iff_rat` below
  proves the equivalence with the literal rational form).
* JS `null` used in arithmetic coerces to `0`; `Option.getD 0` models this.
* Hook invocations (`_init`, `_cleanup`, `_update`, `_draw`, `_pause`,
  `_resume`) and listener (de)activation (`_createEventListeners` /
  `_destroyEventListeners`) are recorded in an event log `List Ev`; the hooks'
  own effects on the Plastick object are an environment parameter where needed
  (the game loop) and are otherwise no-ops, matching `Plastick.State`'s
  default hook bodies.
* The state stack `states` is a Lean list whose head is the end of the JS
  array, i.e. the top of the stack: JS `states.push(s)` is `s :: states`,
  `states.pop()` removes the head, `currentState()` is `states.head?`.
-/

/-- A listener binding stored by `Plastick.State.registerListener`:
the `(element, eventType, callback)` triple, each component an identity. -/
structure Listener where
  element : ℕ
  eventType : ℕ
  callback : ℕ
deriving DecidableEq, Repr

/-- A `Plastick.State` object: `sid` is its JS object identity, `listeners`
the list built by `registerListener`.  The six hook slots default to no-ops
in the source; their invocations are tracked through the event log. -/
structure Plastick.State where
  sid : ℕ
  listeners : List Listener
deriving DecidableEq, Repr

/-- The `Plastick` object: the fields the constructor `function Plastick(stage)`
initialises.  `isFacade` is `canvasMode === 'facade'` (the stage had no
`getContext`).  `startTime`/`freezeStart` are `null`-able timestamps. -/
structure Plastick where
  TARGET_TPS : ℕ
  TICK_CHOKE : ℕ
  isFacade : Bool
  canvasW : ℚ
  canvasH : ℚ
  HDPIMode : ℚ
  states : List Plastick.State
  startTime : Option ℤ
  currentTick : ℕ
  tickTime : ℤ
  tickAlpha : ℚ
  freezeOnBlur : Bool
  isRunning : Bool
  freezeStart : Option ℤ
  frameTime : ℤ
  freezeLength : ℤ
deriving DecidableEq, Repr

/-- The constructor `new Plastick(stage)` with a canvas of the given size:
`TARGET_TPS = 30`, `TICK_CHOKE = 50`, empty stack, counters zeroed. -/
def mkPlastick (isFacade : Bool) (w h : ℚ) : Plastick :=
  { TARGET_TPS := 30
    TICK_CHOKE := 50
    isFacade := isFacade
    canvasW := w
    canvasH := h
    HDPIMode := 1
    states := []
    startTime := none
    currentTick := 0
    tickTime := 0
    tickAlpha := 0
    freezeOnBlur := true
    isRunning := false
    freezeStart := none
    frameTime := 0
    freezeLength := 0 }

/-- Observable hook/listener events, tagged with the state identity. -/
inductive Ev where
  | initEv (sid : ℕ)
  | cleanupEv (sid : ℕ)
  | updateEv (sid : ℕ)
  | drawEv (sid : ℕ)
  | pauseEv (sid : ℕ)
  | resumeEv (sid : ℕ)
  | activateEv (sid : ℕ)
  | deactivateEv (sid : ℕ)
deriving DecidableEq, Repr

/-- `Plastick.prototype.currentState`: `this.states[this.states.length - 1]`,
i.e. the top of the stack (`undefined` on an empty stack). -/
def currentState (g : Plastick) : Option Plastick.State :=
  g.states.head?

/-- `Plastick.prototype.gameTime` (no argument):
`window.performance.now() - this.startTime - this._freezeLength`.
A `null` `startTime` coerces to `0` in JS arithmetic. -/
def gameTime (g : Plastick) (now : ℤ) : ℤ :=
  now - g.startTime.getD 0 - g.freezeLength

/-- `Plastick.prototype.start`.  On `state instanceof Plastick.State && !wasRunning`
it sets the running flag, captures `startTime`, zeroes `tickTime`/`_frameTime`
(but not `currentTick`), pushes the state, activates its listeners and calls
its `_init` hook, returning `true`.  Otherwise it returns
`state instanceof Plastick.State && !this.wasRunning`, where `this.wasRunning`
is an undefined property (the local is `wasRunning`), so `!this.wasRunning`
is always `true` and the fallthrough returns the `instanceof` test alone. -/
def start (g : Plastick) (state : Option Plastick.State) (now : ℤ) :
    Plastick × List Ev × Bool :=
  match state with
  | some s =>
    if !g.isRunning then
      ({ g with
          isRunning := true
          startTime := some now
          tickTime := 0
          frameTime := 0
          states := s :: g.states },
        [Ev.activateEv s.sid, Ev.initEv s.sid], true)
    else
      (g, [], true)
  | none => (g, [], false)

/-- `Plastick.prototype.stop` specialised to an empty state stack: the
`_cleanup()` while-loop has nothing to pop, so only the running flag changes.
This is the `stop()` reached from `popState` once the stack is empty. -/
def stopOnEmpty (g : Plastick) : Plastick × Bool :=
  if g.isRunning then ({ g with isRunning := false }, true) else (g, false)

/-- `Plastick.prototype.popState`: unconditionally pops the top state (if any),
invoking its `_cleanup` and deactivating its listeners; then either reactivates
and `_resume`s the newly exposed state, or — when the stack has become empty
(also when it already was) — calls `stop()`, which at that point only clears
the running flag.  Returns `prevState !== undefined`. -/
def popState (g : Plastick) : Plastick × List Ev × Bool :=
  match g.states with
  | [] => ((stopOnEmpty g).1, [], false)
  | prev :: rest =>
    let g1 := { g with states := rest }
    match rest with
    | cur :: _ =>
      (g1, [Ev.cleanupEv prev.sid, Ev.deactivateEv prev.sid,
            Ev.activateEv cur.sid, Ev.resumeEv cur.sid], true)
    | [] =>
      ((stopOnEmpty g1).1, [Ev.cleanupEv prev.sid, Ev.deactivateEv prev.sid], true)

/-- The `while (this.states.length) { this.popState(); }` loop of
`Plastick.prototype._cleanup`, with fuel; each `popState` on a nonempty stack
removes exactly one state, so fuel `g.states.length` runs it to completion. -/
def cleanupN : ℕ → Plastick → Plastick × List Ev
  | 0, g => (g, [])
  | n + 1, g =>
    match g.states with
    | [] => (g, [])
    | _ :: _ =>
      let r := popState g
      let t := cleanupN n r.1
      (t.1, r.2.1 ++ t.2)

/-- `Plastick.prototype.stop`: if running, clears the running flag and pops
every remaining state via `_cleanup()`; returns whether it was running. -/
def stop (g : Plastick) : Plastick × List Ev × Bool :=
  if g.isRunning then
    let g1 := { g with isRunning := false }
    let t := cleanupN g1.states.length g1
    (t.1, t.2, true)
  else (g, [], false)

/-- `Plastick.prototype.pushState`: when there is a current state and the
argument passes `instanceof Plastick.State`, pauses and deactivates the
current state, pushes the new one, activates it and runs its `_init`.
The return value is `state instanceof Plastick.State` alone — it does not
include the `prevState` test that guards the body. -/
def pushState (g : Plastick) (state : Option Plastick.State) :
    Plastick × List Ev × Bool :=
  match g.states.head?, state with
  | some prev, some s =>
    ({ g with states := s :: g.states },
      [Ev.pauseEv prev.sid, Ev.deactivateEv prev.sid,
       Ev.activateEv s.sid, Ev.initEv s.sid], true)
  | _, st => (g, [], st.isSome)

/-- `Plastick.prototype.changeState`: when there is a current state and the
argument passes `instanceof Plastick.State`, pops and cleans up the current
state, pushes the new one, activates it and runs its `_init`; otherwise it
does nothing.  Returns `prevState !== undefined && state instanceof
Plastick.State`. -/
def changeState (g : Plastick) (state : Option Plastick.State) :
    Plastick × List Ev × Bool :=
  match g.states.head?, state with
  | some prev, some s =>
    ({ g with states := s :: g.states.tail },
      [Ev.cleanupEv prev.sid, Ev.deactivateEv prev.sid,
       Ev.activateEv s.sid, Ev.initEv s.sid], true)
  | prev, st => (g, [], prev.isSome && st.isSome)

/-- `Plastick.prototype._freeze`, driven by a visibility signal.
`docHidden` is `document[hidden]` at delivery time.  The visible branch
computes `window.performance.now() - this._freezeStart` with no null-check:
when `_freezeStart` is `null` it coerces to `0`, so `now - 0` is added to
`_freezeLength`.  Listener (de)activation is omitted here; the claim under
test concerns only the freeze accounting. -/
def freeze (g : Plastick) (docHidden : Bool) (now : ℤ) : Plastick :=
  let g1 :=
    if g.freezeOnBlur && docHidden && g.isRunning then
      { g with freezeStart := some now }
    else g
  if g1.freezeOnBlur && !docHidden && g1.isRunning then
    { g1 with
        freezeLength := g1.freezeLength + (now - g1.freezeStart.getD 0)
        freezeStart := none }
  else g1

/-- `Plastick.prototype.width`: in facade mode the source evaluates
`this.facade.width()` but never returns it, so the call returns `undefined`;
in native-canvas mode it returns `this.canvas.width / this.HDPIMode`. -/
def width (g : Plastick) : Option ℚ :=
  if g.isFacade then none else some (g.canvasW / g.HDPIMode)

/-- `Plastick.prototype.height`: same shape as `width`, with
`this.canvas.height`. -/
def height (g : Plastick) : Option ℚ :=
  if g.isFacade then none else some (g.canvasH / g.HDPIMode)

/-- `Plastick.State.prototype.registerListener`: appends the binding. -/
def registerListener (ls : List Listener) (element ty cb : ℕ) : List Listener :=
  ls ++ [⟨element, ty, cb⟩]

/-- The match test inside `deregisterListener`'s `forEach` callback:
`listener.element === element && listener.eventType === type &&
(listener.callback === callback || callback === undefined)`. -/
def listenerMatches (l : Listener) (element ty : ℕ) (cb : Option ℕ) : Bool :=
  l.element == element && l.eventType == ty &&
    (some l.callback == cb || cb == none)

/-- The `forEach` over the copied `oldListeners` array.  The callback is an
ordinary (non-bound) function in strict-mode code, so inside it `this` is
`undefined`; on the first matching listener, `this.listeners.splice(...)`
throws a `TypeError` (modelled as `none`), aborting the iteration.  If no
listener matches, the iteration completes and the live list is unchanged. -/
def deregisterLoop (old : List Listener) (live : List Listener)
    (element ty : ℕ) (cb : Option ℕ) : Option (List Listener) :=
  match old with
  | [] => some live
  | l :: rest =>
    if listenerMatches l element ty cb then none
    else deregisterLoop rest live element ty cb

/-- `Plastick.State.prototype.deregisterListener`: copies the listener array
and iterates over the copy; `none` is the strict-mode `TypeError` raised as
soon as any listener matches. -/
def deregisterListener (ls : List Listener) (element ty : ℕ) (cb : Option ℕ) :
    Option (List Listener) :=
  deregisterLoop ls ls element ty cb

/-- The environment that supplies each state's `_update` hook body: given the
identity of the state being updated and the Plastick object, it returns the
(possibly mutated) Plastick object.  Hooks are free to call `stop`,
`pushState`, `popState`, `changeState` or mutate fields directly. -/
def UpdateEnv : Type := ℕ → Plastick → Plastick

/-- The default `Plastick.State._update` body: `function () { return undefined; }`. -/
def noopUpdate : UpdateEnv := fun _ g => g

/-- Result of one `_gameLoop` invocation: a final Plastick object and event
log, or a JS `TypeError` from calling a hook on an `undefined` current state. -/
inductive GLRes where
  | ok (g : Plastick) (evs : List Ev) : GLRes
  | exn : GLRes
deriving DecidableEq, Repr

/-- The tick-due test of the `while` loop,
`this._frameTime * this.TARGET_TPS / 1000 > this.currentTick`, embedded as
the equivalent integer comparison (see `tickDue_iff_rat`). -/
def tickDue (frameTime : ℤ) (tps tick : ℕ) : Prop :=
  frameTime * tps > (tick : ℤ) * 1000

instance (f : ℤ) (tps tick : ℕ) : Decidable (tickDue f tps tick) := by
  unfold tickDue; infer_instance



/-- The `while` loop of `Plastick.prototype._gameLoop`.  Per iteration, in
source order: test `frameTime * TARGET_TPS / 1000 > currentTick &&
ticksUpdated < TICK_CHOKE && _isRunning` (all read from the current object);
then `currentTick += 1`, `ticksUpdated += 1`, `currentState()._update(this)`
(a `TypeError` if the stack is empty), `tickTime = gameTime()`.  `fuel` bounds
the iterations modelled: a run that terminates in JS is reproduced exactly by
any sufficiently large fuel (when hooks do not grow `TICK_CHOKE`,
`TICK_CHOKE + 1` always suffices, since `ticksUpdated` grows each iteration);
`none` means the fuel ran out before the loop exited. -/
def tickLoop (env : UpdateEnv) (now : ℤ) :
    ℕ → Plastick → ℕ → List Ev → Option GLRes
  | 0, _, _, _ => none
  | fuel + 1, g, ticksUpdated, evs =>
    if tickDue g.frameTime g.TARGET_TPS g.currentTick ∧
        ticksUpdated < g.TICK_CHOKE ∧ g.isRunning then
      let g1 := { g with currentTick := g.currentTick + 1 }
      match g1.states.head? with
      | none => some GLRes.exn
      | some s =>
        let g2 := env s.sid g1
        let g3 := { g2 with tickTime := gameTime g2 now }
        tickLoop env now fuel g3 (ticksUpdated + 1) (evs ++ [Ev.updateEv s.sid])
    else some (GLRes.ok g evs)

/-- `Plastick.prototype._gameLoop`: captures `sameState = this.currentState()`,
sets `this._frameTime = this.gameTime()`, runs the tick `while` loop, and then
— only if `this._isRunning && this.currentState() === sameState` — assigns
`this.tickAlpha = this.gameTime() * this.TARGET_TPS / 1000 - this.currentTick
+ 1` and calls `this.currentState()._draw(this)` (a `TypeError` when both
sides of the identity test are `undefined`).  Object identity of states is
compared through their `sid`. -/
def gameLoopAux (env : UpdateEnv) (now : ℤ) (fuel : ℕ) (g0 : Plastick) :
    Option GLRes :=
  let sameState := (currentState g0).map Plastick.State.sid
  let g := { g0 with frameTime := gameTime g0 now }
  match tickLoop env now fuel g 0 [] with
  | none => none
  | some GLRes.exn => some GLRes.exn
  | some (GLRes.ok g' evs) =>
    if g'.isRunning ∧ (currentState g').map Plastick.State.sid = sameState then
      let g2 := { g' with
        tickAlpha :=
          ((gameTime g' now : ℚ) * g'.TARGET_TPS) / 1000 - g'.currentTick + 1 }
      match currentState g' with
      | some s => some (GLRes.ok g2 (evs ++ [Ev.drawEv s.sid]))
      | none => some GLRes.exn
    else some (GLRes.ok g' evs)

/-- One `_gameLoop` invocation with the canonical fuel `TICK_CHOKE + 1`,
sufficient whenever the update hooks do not enlarge `TICK_CHOKE`. -/
def gameLoop (env : UpdateEnv) (now : ℤ) (g : Plastick) : Option GLRes :=
  gameLoopAux env now (g.TICK_CHOKE + 1) g

/-- Whether an event is a draw-hook invocation. -/
def Ev.isDraw : Ev → Bool
  | Ev.drawEv _ => true
  | _ => false

/-- Whether an event is an update-hook invocation. -/
def Ev.isUpdate : Ev → Bool
  | Ev.updateEv _ => true
  | _ => false

/-! Concrete fixtures used by witnesses and counterexamples. -/

/-- A state object with identity `1` and no listeners. -/
def sA : Plastick.State := ⟨1, []⟩

/-- A second, distinct state object. -/
def sB : Plastick.State := ⟨2, [⟨5, 6, 7⟩]⟩

/-- A freshly constructed native-canvas Plastick on a 720×480 canvas. -/
def gBase : Plastick := mkPlastick false 720 480

/-- `gBase` after a successful `start(sA)` at `t = 0` (running, one state). -/
def gLive : Plastick := { gBase with isRunning := true, states := [sA], startTime := some 0 }

/-- A stopped instance whose previous session left `currentTick` at `7`. -/
def gStopped7 : Plastick := { gBase with currentTick := 7 }

/-- An update hook that calls `stop()` (observable here as clearing the
running flag; on a one-state stack `stop` also empties it, but for the
witness only the flag matters). -/
def stopEnv : UpdateEnv := fun _ p => { p with isRunning := false }

/-- The state of `gLive` after one `_gameLoop` invocation at `t = 100` in
which the first update called `stop()`: one tick ran, then the loop exited. -/
def gW3 : Plastick :=
  { gLive with frameTime := 100, currentTick := 1, isRunning := false, tickTime := 100 }

/-- Extracts `currentTick` from a normally completed `_gameLoop` run. -/
def resTick : Option GLRes → Option ℕ
  | some (GLRes.ok g _) => some g.currentTick
  | _ => none

/-- Counts the update-hook events of a normally completed `_gameLoop` run. -/
def resUpdates : Option GLRes → Option ℕ
  | some (GLRes.ok _ evs) => some (evs.countP fun e => e.isUpdate)
  | _ => none

/-- The integer embedding of the loop condition agrees with the source's
rational form `frameTime * TARGET_TPS / 1000 > currentTick`. -/
theorem tickDue_iff_rat (f : ℤ) (tps tick : ℕ) :
    tickDue f tps tick ↔ ((f : ℚ) * tps / 1000 > (tick : ℚ)) := by
  unfold tickDue
  rw [gt_iff_lt, gt_iff_lt, lt_div_iff₀ (by norm_num : (0 : ℚ) < 1000)]
  exact ⟨fun h => by exact_mod_cast h, fun h => by exact_mod_cast h⟩

/-- C2: the claim says `start` on an already-running instance returns `false`
with no side effect.  The code is side-effect free there, but the fallthrough
`return state instanceof Plastick.State && !this.wasRunning` reads the
undefined property `this.wasRunning` (the local is `wasRunning`), so with a
valid State it returns `true` while running — contradicting the function's own
doc comment.  This theorem evaluates the code at the failing input: the state
is unchanged and no hook runs, but the result is `true`. -/
theorem claimC2_start_while_running_returns_true :
    (start gLive (some sB) 5).1 = gLive ∧
    (start gLive (some sB) 5).2.1 = [] ∧
    (start gLive (some sB) 5).2.2 = true ∧
    (start gLive none 5).2.2 = false := by
  refine ⟨rfl, rfl, rfl, rfl⟩

/-- C3 counterexample: the claim says a successful `start` resets
`currentTick` to 0.  On a stopped instance left at tick 7, `start` succeeds
but `currentTick` stays 7: `start` zeroes only `tickTime` and `_frameTime`. -/
theorem claimC3_counterexample :
    (start gStopped7 (some sA) 100).2.2 = true ∧
    (start gStopped7 (some sA) 100).1.currentTick = 7 ∧
    (start gStopped7 (some sA) 100).1.currentTick ≠ 0 := by
  refine ⟨rfl, rfl, by decide⟩

/-- C3 (amended): a successful `start` on a non-running instance leaves
`currentTick` unchanged (it is initialised to 0 only by the constructor),
zeroes `tickTime` and `_frameTime`, captures `startTime`, pushes the state,
sets the running flag, and preserves the `TARGET_TPS` / `TICK_CHOKE`
configuration. -/
theorem claimC3_start_preserves_currentTick (g : Plastick) (s : Plastick.State)
    (now : ℤ) (h : g.isRunning = false) :
    (start g (some s) now).2.2 = true ∧
    (start g (some s) now).1.currentTick = g.currentTick ∧
    (start g (some s) now).1.tickTime = 0 ∧
    (start g (some s) now).1.frameTime = 0 ∧
    (start g (some s) now).1.startTime = some now ∧
    (start g (some s) now).1.isRunning = true ∧
    (start g (some s) now).1.states = s :: g.states ∧
    (start g (some s) now).1.TARGET_TPS = g.TARGET_TPS ∧
    (start g (some s) now).1.TICK_CHOKE = g.TICK_CHOKE := by
  simp [start, h]

/-- Witness for C3 (amended) at `gStopped7`, `sA`, `now = 100`. -/
theorem claimC3_witness :
    gStopped7.isRunning = false ∧
    ((start gStopped7 (some sA) 100).2.2 = true ∧
      (start gStopped7 (some sA) 100).1.currentTick = gStopped7.currentTick ∧
      (start gStopped7 (some sA) 100).1.tickTime = 0 ∧
      (start gStopped7 (some sA) 100).1.frameTime = 0 ∧
      (start gStopped7 (some sA) 100).1.startTime = some 100 ∧
      (start gStopped7 (some sA) 100).1.isRunning = true ∧
      (start gStopped7 (some sA) 100).1.states = sA :: gStopped7.states ∧
      (start gStopped7 (some sA) 100).1.TARGET_TPS = gStopped7.TARGET_TPS ∧
      (start gStopped7 (some sA) 100).1.TICK_CHOKE = gStopped7.TICK_CHOKE) :=
  ⟨rfl, claimC3_start_preserves_currentTick gStopped7 sA 100 rfl⟩

/-- C4: the claim says redundant visibility signals never change the
accumulated freeze length, guarded by a null-check on `_freezeStart`.  The
code has no such guard: on a visible signal with `_freezeStart === null`,
`window.performance.now() - null` coerces to `now - 0`, so `now` itself is
added to `_freezeLength`.  Evaluating the code: a spurious visible signal at
`t = 1000` on a running, never-frozen instance adds 1000 ms of freeze, and a
hide(100)/show(400)/show(700) sequence accumulates 1000 ms instead of the
300 ms a single show leaves. -/
theorem claimC4_freeze_not_idempotent :
    gLive.freezeStart = none ∧ gLive.freezeLength = 0 ∧
    (freeze gLive false 1000).freezeLength = 1000 ∧
    (freeze (freeze gLive true 100) false 400).freezeLength = 300 ∧
    (freeze (freeze (freeze gLive true 100) false 400) false 700).freezeLength = 1000 := by
  refine ⟨rfl, rfl, rfl, rfl, rfl⟩

/-- C6: `changeState` with an invalid argument on a non-empty stack returns
`false` and does nothing: the object is unchanged (same stack, same depth,
still running) and no hook or listener event fires. -/
theorem claimC6_changeState_invalid_no_effect (g : Plastick)
    (h : g.states ≠ []) :
    (changeState g none).1 = g ∧
    (changeState g none).2.1 = [] ∧
    (changeState g none).2.2 = false := by
  cases hh : g.states.head? <;> simp [changeState, hh]

/-- Witness for C6 at the running one-state instance `gLive`. -/
theorem claimC6_witness :
    gLive.states ≠ [] ∧
    ((changeState gLive none).1 = gLive ∧
      (changeState gLive none).2.1 = [] ∧
      (changeState gLive none).2.2 = false) :=
  ⟨by decide, claimC6_changeState_invalid_no_effect gLive (by decide)⟩

/-- C7 counterexample: the claim says `pushState` on an empty stack returns
`false` for every argument.  With a valid State it has no effect but returns
`true`: the return value `state instanceof Plastick.State` ignores whether a
current state existed. -/
theorem claimC7_counterexample :
    gBase.states = [] ∧
    (pushState gBase (some sA)).1 = gBase ∧
    (pushState gBase (some sA)).2.1 = [] ∧
    (pushState gBase (some sA)).2.2 = true := by
  refine ⟨rfl, rfl, rfl, rfl⟩

/-- C7 (amended): `pushState` on an empty stack has no effect — nothing is
pushed, no hook runs, no listener is touched — but its return value reflects
only the validity of the argument: `true` for a valid State, `false`
otherwise. -/
theorem claimC7_pushState_empty_no_effect (g : Plastick)
    (state : Option Plastick.State) (h : g.states = []) :
    (pushState g state).1 = g ∧
    (pushState g state).2.1 = [] ∧
    (pushState g state).2.2 = state.isSome := by
  cases state <;> simp [pushState, h]

/-- Witness for C7 (amended) at the fresh instance and both argument kinds. -/
theorem claimC7_witness :
    gBase.states = [] ∧
    ((pushState gBase (some sB)).1 = gBase ∧
      (pushState gBase (some sB)).2.1 = [] ∧
      (pushState gBase (some sB)).2.2 = (some sB).isSome) ∧
    ((pushState gBase none).1 = gBase ∧
      (pushState gBase none).2.1 = [] ∧
      (pushState gBase none).2.2 = (none : Option Plastick.State).isSome) :=
  ⟨rfl, claimC7_pushState_empty_no_effect gBase (some sB) rfl,
    claimC7_pushState_empty_no_effect gBase none rfl⟩

/-- C8: `popState` on a running single-state stack returns `true`, runs that
state's `_cleanup` and deactivates its listeners, and triggers `stop()`: the
running flag ends `false` and the stack ends empty. -/
theorem claimC8_popState_last_stops (g : Plastick) (s : Plastick.State)
    (h1 : g.states = [s]) (h2 : g.isRunning = true) :
    popState g =
      ({ g with states := [], isRunning := false },
        [Ev.cleanupEv s.sid, Ev.deactivateEv s.sid], true) := by
  simp [popState, h1, stopOnEmpty, h2]

/-- Witness for C8 at `gLive` (running, stack `[sA]`). -/
theorem claimC8_witness :
    gLive.states = [sA] ∧ gLive.isRunning = true ∧
    popState gLive =
      ({ gLive with states := [], isRunning := false },
        [Ev.cleanupEv sA.sid, Ev.deactivateEv sA.sid], true) :=
  ⟨rfl, rfl, claimC8_popState_last_stops gLive sA rfl rfl⟩

/-- C9: the claim says `deregisterListener` removes exactly the matching
bindings.  The code's `forEach` callback is an unbound strict-mode function,
so `this` is `undefined` inside it and `this.listeners.splice(...)` throws a
`TypeError` on the first matching binding; only a call that matches nothing
returns normally (and removes nothing).  Evaluating the code: a matching
explicit-callback call and a matching omitted-callback call both throw
(`none`), while a non-matching call leaves the list unchanged. -/
theorem claimC9_deregister_throws_on_match :
    deregisterListener [⟨1, 2, 3⟩] 1 2 (some 3) = none ∧
    deregisterListener [⟨1, 2, 3⟩, ⟨1, 2, 4⟩] 1 2 none = none ∧
    deregisterListener [⟨1, 2, 3⟩] 9 2 (some 3) = some [⟨1, 2, 3⟩] ∧
    deregisterListener [⟨1, 2, 3⟩] 1 2 (some 4) = some [⟨1, 2, 3⟩] := by
  refine ⟨rfl, rfl, rfl, rfl⟩

/-- C10: in facade mode `width()`/`height()` compute `facade.width()` /
`facade.height()` but never return them, so both return `undefined`; in
native-canvas mode they return `canvas.width / HDPIMode` and
`canvas.height / HDPIMode`. -/
theorem claimC10_width_height (g : Plastick) :
    (g.isFacade = true → width g = none ∧ height g = none) ∧
    (g.isFacade = false →
      width g = some (g.canvasW / g.HDPIMode) ∧
      height g = some (g.canvasH / g.HDPIMode)) := by
  constructor <;> intro h <;> simp [width, height, h]

/-- Witness for C10 on a facade-mode and a native-canvas instance. -/
theorem claimC10_witness :
    (width (mkPlastick true 720 480) = none ∧
      height (mkPlastick true 720 480) = none) ∧
    (width gBase = some (gBase.canvasW / gBase.HDPIMode) ∧
      height gBase = some (gBase.canvasH / gBase.HDPIMode)) :=
  ⟨(claimC10_width_height (mkPlastick true 720 480)).1 rfl,
    (claimC10_width_height gBase).2 rfl⟩

/-- Every event the tick loop appends to the log is an update-hook event. -/
theorem tickLoop_ok_events (env : UpdateEnv) (now : ℤ) :
    ∀ (fuel : ℕ) (g : Plastick) (tu : ℕ) (evs : List Ev) (g' : Plastick)
      (evs' : List Ev),
      tickLoop env now fuel g tu evs = some (GLRes.ok g' evs') →
      ∃ us, evs' = evs ++ us ∧ ∀ e ∈ us, e.isUpdate = true := by
  intro fuel
  induction fuel with
  | zero => intro g tu evs g' evs' h; simp [tickLoop] at h
  | succ n ih =>
    intro g tu evs g' evs' h
    simp only [tickLoop] at h
    split_ifs at h with hc
    · split at h
      · exact absurd h (by simp)
      · next s heq =>
        obtain ⟨us, hus, hall⟩ := ih _ _ _ _ _ h
        refine ⟨Ev.updateEv s.sid :: us, by rw [hus, List.append_assoc]; rfl, ?_⟩
        intro e he
        rcases List.mem_cons.mp he with rfl | hmem
        · rfl
        · exact hall e hmem
    · obtain ⟨rfl, rfl⟩ : g = g' ∧ evs = evs' := by cases h; exact ⟨rfl, rfl⟩
      exact ⟨[], by simp, by simp⟩

/-- When the update hooks do not touch `tickAlpha`, neither does the tick
loop: only the draw branch of `_gameLoop` assigns it. -/
theorem tickLoop_ok_tickAlpha (env : UpdateEnv)
    (henv : ∀ i p, (env i p).tickAlpha = p.tickAlpha) (now : ℤ) :
    ∀ (fuel : ℕ) (g : Plastick) (tu : ℕ) (evs : List Ev) (g' : Plastick)
      (evs' : List Ev),
      tickLoop env now fuel g tu evs = some (GLRes.ok g' evs') →
      g'.tickAlpha = g.tickAlpha := by
  intro fuel
  induction fuel with
  | zero => intro g tu evs g' evs' h; simp [tickLoop] at h
  | succ n ih =>
    intro g tu evs g' evs' h
    simp only [tickLoop] at h
    split_ifs at h with hc
    · split at h
      · exact absurd h (by simp)
      · next s heq =>
        have hstep := ih _ _ _ _ _ h
        rw [hstep]
        exact henv s.sid _
    · obtain rfl : g = g' := by cases h; rfl
      rfl

/-- C5: in one `_gameLoop` invocation (any fuel, any update environment that
does not itself write `tickAlpha`), if the invocation completes normally and
the running flag ended `false` or the top-of-stack identity differs from the
one captured at entry, then `tickAlpha` is unchanged and no draw hook ran;
otherwise the top state exists, and the event log is exactly the update-hook
calls followed by a single draw of that state (so the draw follows every
update of the invocation). -/
theorem claimC5_draw_skip_on_transition (env : UpdateEnv)
    (henv : ∀ i p, (env i p).tickAlpha = p.tickAlpha)
    (now : ℤ) (fuel : ℕ) (g g' : Plastick) (evs : List Ev)
    (hrun : gameLoopAux env now fuel g = some (GLRes.ok g' evs)) :
    ((g'.isRunning = false ∨
        (currentState g').map Plastick.State.sid ≠
          (currentState g).map Plastick.State.sid) →
      g'.tickAlpha = g.tickAlpha ∧ ∀ e ∈ evs, e.isDraw = false) ∧
    ((g'.isRunning = true ∧
        (currentState g').map Plastick.State.sid =
          (currentState g).map Plastick.State.sid) →
      ∃ s us, currentState g' = some s ∧ evs = us ++ [Ev.drawEv s.sid] ∧
        ∀ e ∈ us, e.isUpdate = true) := by
  simp only [gameLoopAux] at hrun
  split at hrun
  · exact absurd hrun (by simp)
  · exact absurd hrun (by simp)
  · next gl evl heq =>
    split_ifs at hrun with hg
    · split at hrun
      · next s hcs =>
        simp only [Option.some.injEq, GLRes.ok.injEq] at hrun
        obtain ⟨hg2, hevs⟩ := hrun
        subst hg2
        subst hevs
        have hrunning : gl.isRunning = true := hg.1
        constructor
        · intro habs
          exfalso
          rcases habs with hr | hne
          · have hr' : gl.isRunning = false := hr
            rw [hrunning] at hr'
            exact absurd hr' (by simp)
          · refine hne ?_
            rw [show currentState ({ gl with
                tickAlpha := ((gameTime gl now : ℚ) * gl.TARGET_TPS) / 1000 -
                  gl.currentTick + 1 } : Plastick) = currentState gl from rfl]
            exact hg.2
        · intro _
          obtain ⟨us, hus, hall⟩ := tickLoop_ok_events env now fuel _ 0 [] gl evl heq
          refine ⟨s, evl, hcs, rfl, ?_⟩
          intro e he
          rw [hus] at he
          exact hall e (by simpa using he)
      · next hcs => exact absurd hrun (by simp)
    · simp only [Option.some.injEq, GLRes.ok.injEq] at hrun
      obtain ⟨hg2, hevs⟩ := hrun
      subst hg2
      subst hevs
      constructor
      · intro _
        have hta := tickLoop_ok_tickAlpha env henv now fuel _ 0 [] gl evl heq
        refine ⟨hta, ?_⟩
        obtain ⟨us, hus, hall⟩ := tickLoop_ok_events env now fuel _ 0 [] gl evl heq
        intro e he
        rw [hus] at he
        have := hall e (by simpa using he)
        cases e <;> simp_all [Ev.isUpdate, Ev.isDraw]
      · intro hpos
        exact absurd hpos hg





/-- Witness for C5: at `t = 100` on `gLive` with an update hook that stops
the game, the invocation ends not running, `tickAlpha` is untouched and no
draw event was emitted. -/
theorem claimC5_witness :
    gW3.tickAlpha = gLive.tickAlpha ∧
    ∀ e ∈ [Ev.updateEv 1], e.isDraw = false :=
  (claimC5_draw_skip_on_transition stopEnv (fun _ _ => rfl) 100 51 gLive gW3
    [Ev.updateEv 1] rfl).1 (Or.inl rfl)



/-- Characterisation of the tick loop under the default (no-op) update hook:
starting from `ticksUpdated = tu`, the loop runs the game state forward to
`min (currentTick + (TICK_CHOKE - tu)) (max currentTick ⌈frameTime * TARGET_TPS / 1000⌉)`,
appending one update event per tick, and touches neither the stack nor the
flags.  `fuel` must exceed the remaining choke budget. -/
theorem tickLoop_noop_char (now : ℤ) (T K : ℕ) (f : ℤ) (s : Plastick.State)
    (rest : List Plastick.State) :
    ∀ (fuel : ℕ) (g : Plastick) (tu : ℕ) (evs : List Ev),
      g.TARGET_TPS = T → g.TICK_CHOKE = K → g.frameTime = f →
      g.states = s :: rest → g.isRunning = true → tu ≤ K → K - tu < fuel →
      ∃ g' m,
        tickLoop noopUpdate now fuel g tu evs =
          some (GLRes.ok g' (evs ++ List.replicate m (Ev.updateEv s.sid))) ∧
        g'.currentTick = g.currentTick + m ∧
        g'.currentTick =
          min (g.currentTick + (K - tu))
            (max g.currentTick ⌈((f : ℚ) * T) / 1000⌉₊) ∧
        g'.states = s :: rest ∧ g'.isRunning = true ∧
        g'.TARGET_TPS = T ∧ g'.TICK_CHOKE = K ∧ g'.frameTime = f := by
  intro fuel
  induction fuel with
  | zero =>
    intro g tu evs _ _ _ _ _ _ hfuel
    omega
  | succ n ih =>
    intro g tu evs hT hK hF hst hrun htu hfuel
    by_cases hc : tickDue g.frameTime g.TARGET_TPS g.currentTick ∧
        tu < g.TICK_CHOKE ∧ g.isRunning
    · have hdue := hc.1
      have htuK := hc.2.1
      have hdueQ : (g.currentTick : ℚ) < ((f : ℚ) * T) / 1000 := by
        have h0 := (tickDue_iff_rat g.frameTime g.TARGET_TPS g.currentTick).mp hdue
        rw [hF, hT] at h0
        exact h0
      have hceil : g.currentTick < ⌈((f : ℚ) * T) / 1000⌉₊ := Nat.lt_ceil.mpr hdueQ
      obtain ⟨g', m, heq, hplus, hmin, hstates, hrun', hT', hK', hF'⟩ :=
        ih { g with
              currentTick := g.currentTick + 1
              tickTime := gameTime { g with currentTick := g.currentTick + 1 } now }
          (tu + 1) (evs ++ [Ev.updateEv s.sid]) hT hK hF hst hrun
          (by omega) (by omega)
      rw [List.append_assoc] at heq
      refine ⟨g', m + 1, ?_, ?_, ?_, hstates, hrun', hT', hK', hF'⟩
      · simp only [tickLoop, noopUpdate]
        rw [if_pos hc]
        have hh : g.states.head? = some s := by rw [hst]; rfl
        rw [hh]
        exact heq
      · have h4 : g'.currentTick = g.currentTick + 1 + m := hplus
        omega
      · have h1 : g.currentTick + 1 + (K - (tu + 1)) = g.currentTick + (K - tu) := by
          rw [hK] at htuK; omega
        have h2 : max (g.currentTick + 1) ⌈((f : ℚ) * T) / 1000⌉₊ =
            ⌈((f : ℚ) * T) / 1000⌉₊ := max_eq_right (by omega)
        have h3 : max g.currentTick ⌈((f : ℚ) * T) / 1000⌉₊ =
            ⌈((f : ℚ) * T) / 1000⌉₊ := max_eq_right (by omega)
        have hmin' : g'.currentTick =
            min (g.currentTick + 1 + (K - (tu + 1)))
              (max (g.currentTick + 1) ⌈((f : ℚ) * T) / 1000⌉₊) := hmin
        rw [h1, h2] at hmin'
        rw [h3]
        exact hmin'
    · refine ⟨g, 0, ?_, by omega, ?_, hst, hrun, hT, hK, hF⟩
      · rw [tickLoop, if_neg hc]
        simp
      · rw [not_and_or, not_and_or] at hc
        rcases hc with hnd | hnb | hnr
        · have hle : ((f : ℚ) * T) / 1000 ≤ (g.currentTick : ℚ) := by
            have := (tickDue_iff_rat g.frameTime g.TARGET_TPS g.currentTick).not.mp hnd
            rw [hF, hT] at this
            exact le_of_not_lt this
          have : ⌈((f : ℚ) * T) / 1000⌉₊ ≤ g.currentTick := Nat.ceil_le.mpr hle
          have hmx : max g.currentTick ⌈((f : ℚ) * T) / 1000⌉₊ = g.currentTick :=
            max_eq_left this
          rw [hmx]
          omega
        · rw [hK] at hnb
          have : tu = K := by omega
          have hmx : g.currentTick ≤ max g.currentTick ⌈((f : ℚ) * T) / 1000⌉₊ :=
            le_max_left _ _
          omega
        · rw [hrun] at hnr
          simp at hnr

/-- C1 (amended): one `_gameLoop` invocation on a started instance with the
default (no-op) update hook advances `currentTick` to
`min (currentTick + TICK_CHOKE) (max currentTick ⌈gameTime() * TARGET_TPS / 1000⌉)`
— the *ceiling* of the wall-clock target, not its floor, because the loop
keeps ticking while `frameTime * TARGET_TPS / 1000 > currentTick` holds
strictly — runs exactly one update hook per tick (hence at most `TICK_CHOKE`
increments per invocation), and then draws once. -/
theorem claimC1_tick_catchup (g : Plastick) (now : ℤ) (s : Plastick.State)
    (rest : List Plastick.State) (hst : g.states = s :: rest)
    (hrun : g.isRunning = true) :
    ∃ g' m,
      gameLoop noopUpdate now g =
        some (GLRes.ok g'
          (List.replicate m (Ev.updateEv s.sid) ++ [Ev.drawEv s.sid])) ∧
      g'.currentTick = g.currentTick + m ∧
      g'.currentTick =
        min (g.currentTick + g.TICK_CHOKE)
          (max g.currentTick
            ⌈((gameTime g now : ℚ) * g.TARGET_TPS) / 1000⌉₊) ∧
      m ≤ g.TICK_CHOKE := by
  obtain ⟨g', m, heq, hplus, hmin, hstates, hrun', hT', hK', hF'⟩ :=
    tickLoop_noop_char now g.TARGET_TPS g.TICK_CHOKE (gameTime g now) s rest
      (g.TICK_CHOKE + 1) { g with frameTime := gameTime g now } 0 []
      rfl rfl rfl hst hrun (Nat.zero_le _) (by omega)
  have hcs' : currentState g' = some s := by
    unfold currentState
    rw [hstates]
    rfl
  have hcs0 : currentState { g with frameTime := gameTime g now } = some s := by
    unfold currentState
    show g.states.head? = some s
    rw [hst]
    rfl
  refine ⟨{ g' with
      tickAlpha :=
        ((gameTime g' now : ℚ) * g'.TARGET_TPS) / 1000 - g'.currentTick + 1 },
    m, ?_, hplus, ?_, ?_⟩
  · have hcsg : currentState g = some s := by
      unfold currentState
      rw [hst]
      rfl
    unfold gameLoop gameLoopAux
    simp only
    rw [heq]
    simp only
    rw [if_pos ⟨hrun', by rw [hcs', hcsg]⟩]
    rw [hcs']
    simp
  · exact hmin
  · have h5 : g.currentTick + m ≤ g.currentTick + g.TICK_CHOKE := by
      rw [← hplus, hmin]
      exact min_le_left _ _
    omega





/-- C1 counterexample: the claim says that when the choke limit is not
reached, `currentTick` after the invocation equals
`floor(gameTime() * TARGET_TPS / 1000)`.  On `gLive` refreshed at
`t = 50 ms` (`TARGET_TPS = 30`, `TICK_CHOKE = 50`), only 2 of the 50
permitted ticks run — the choke is not reached — yet `currentTick` ends at 2
while the floor of `50 * 30 / 1000 = 1.5` is 1: the loop overshoots to the
ceiling. -/
theorem claimC1_counterexample :
    resTick (gameLoop noopUpdate 50 gLive) = some 2 ∧
    resUpdates (gameLoop noopUpdate 50 gLive) = some 2 ∧
    2 < gLive.TICK_CHOKE ∧
    Nat.floor (((gameTime gLive 50 : ℚ) * gLive.TARGET_TPS) / 1000) = 1 ∧
    (2 : ℕ) ≠ 1 := by
  refine ⟨rfl, rfl, by decide, ?_, by decide⟩
  have h : ((gameTime gLive 50 : ℚ) * gLive.TARGET_TPS) / 1000 = 3 / 2 := by
    norm_num [gameTime, gLive, gBase, mkPlastick]
  rw [h, Nat.floor_eq_iff (by norm_num)]
  norm_num

/-- Evaluation of the ceiling target in the spec's concrete scenario. -/
theorem ceilScenario :
    ⌈((gameTime gLive 2000 : ℚ) * gLive.TARGET_TPS) / 1000⌉₊ = 60 := by
  have h : ((gameTime gLive 2000 : ℚ) * gLive.TARGET_TPS) / 1000 = ((60 : ℕ) : ℚ) := by
    norm_num [gameTime, gLive, gBase, mkPlastick]
  rw [h, Nat.ceil_natCast]

/-- Witness for C1 (amended), which is also the spec's scenario:
`TARGET_TPS = 30`, `TICK_CHOKE = 50`, started at `t = 0`, first refresh at
`t = 2000 ms`: the wall-clock target is 60 ticks but `currentTick` clamps at
exactly 50. -/
theorem claimC1_witness :
    ∃ g' m,
      gameLoop noopUpdate 2000 gLive =
        some (GLRes.ok g'
          (List.replicate m (Ev.updateEv sA.sid) ++ [Ev.drawEv sA.sid])) ∧
      g'.currentTick = 50 := by
  obtain ⟨g', m, heq, hplus, hmin, hbound⟩ :=
    claimC1_tick_catchup gLive 2000 sA [] rfl rfl
  refine ⟨g', m, heq, ?_⟩
  rw [hmin, ceilScenario]
  decide
